import Mathlib

/-!
Verification of the permission-probe/report engine of
`scripts/bigquery-tests/04_test_access_summary.py`.

The script runs an ordered battery of permission probes against a BigQuery
dataset, collects their boolean outcomes in a `permissions` dictionary, and
derives a coarse access level (NONE / READER / WRITER / OWNER) from them.
We embed the probe battery as a pure function over an environment of probe
outcomes (each external call may succeed, or fail with a not-found,
forbidden, or transient error), and the classification and exit-code logic
as pure functions over the collected booleans.
-/

namespace AccessSummary

/-- The derived coarse access level (the `access_level` string of the script). -/
inductive AccessLevel where
  | NONE
  | READER
  | WRITER
  | OWNER
deriving DecidableEq, Repr, Fintype

/-- Numeric rank of an access level, with NONE < READER < WRITER < OWNER. -/
def AccessLevel.toNat : AccessLevel → Nat
  | .NONE => 0
  | .READER => 1
  | .WRITER => 2
  | .OWNER => 3

/-- The eight probe booleans of the `permissions` dictionary, in the order the
script initialises them. -/
structure Permissions where
  dataset_exists : Bool
  can_list_tables : Bool
  can_get_dataset : Bool
  can_create_table : Bool
  can_read_data : Bool
  can_write_data : Bool
  can_delete_data : Bool
  can_update_dataset : Bool
deriving DecidableEq, Repr

/-- The all-false initial `permissions` dictionary. -/
def initPermissions : Permissions :=
  ⟨false, false, false, false, false, false, false, false⟩

/-- Kind of failure an external BigQuery call can raise: the `NotFound` and
`Forbidden` exception classes the script names, and `transient` standing for
every other exception (timeout, quota, ...). -/
inductive ErrKind where
  | notFound
  | forbidden
  | transient
deriving DecidableEq, Repr

/-- Outcome of one external call: success, or an exception of some kind. -/
inductive Outcome where
  | ok
  | err (e : ErrKind)
deriving DecidableEq, Repr

/-- One probe of the ordered battery of `check_dataset_permissions`. -/
inductive ProbeName where
  | getDataset
  | listTables
  | readData
  | writeData
  | deleteData
  | updateDataset
deriving DecidableEq, Repr

/-- The environment a run executes against: the outcome each external call
would have if attempted. `clientInit` is the `bigquery.Client` construction in
`generate_access_report`; the remaining fields are the calls of
`check_dataset_permissions`, in program order. -/
structure Env where
  clientInit : Outcome
  getDataset : Outcome
  listTables : Outcome
  readQuery : Outcome
  createTable : Outcome
  deleteTempTable : Outcome
  deleteData : Outcome
  updateDataset : Outcome
deriving DecidableEq, Repr

/-- Result of one run of `check_dataset_permissions`: the collected booleans,
plus ghost instrumentation of the control flow — which probes' try-blocks were
entered, and whether the cleanup `delete_table` call was attempted. -/
structure RunResult where
  permissions : Permissions
  attempted : List ProbeName
  cleanupAttempted : Bool
deriving DecidableEq, Repr

/-- The probe battery in program order (all six probes attempted). -/
def allProbes : List ProbeName :=
  [.getDataset, .listTables, .readData, .writeData, .deleteData, .updateDataset]

/-- Lines 16-88 of the script. The dataset-metadata probe catches only
`NotFound` and `Forbidden` (each causing an early `return permissions`); any
other exception there is uncaught and propagates (`Except.error`). Every later
probe is wrapped in a bare `except: pass`, so its failure only leaves its
booleans false. In the write probe, the flags are set and the cleanup
`delete_table` is attempted only after the CREATE succeeds (they are inside
the same try-block, after the `client.query(...).result()` call), and a
cleanup failure hits the same bare `except: pass` after the flags are set. -/
def check_dataset_permissions (env : Env) : Except ErrKind RunResult :=
  match env.getDataset with
  | .err .notFound => .ok ⟨initPermissions, [.getDataset], false⟩
  | .err .forbidden => .ok ⟨initPermissions, [.getDataset], false⟩
  | .err .transient => .error .transient
  | .ok =>
    let p0 := { initPermissions with dataset_exists := true, can_get_dataset := true }
    let p1 := match env.listTables with
      | .ok => { p0 with can_list_tables := true }
      | .err _ => p0
    let p2 := match env.readQuery with
      | .ok => { p1 with can_read_data := true }
      | .err _ => p1
    let p3 := match env.createTable with
      | .ok => { p2 with can_create_table := true, can_write_data := true }
      | .err _ => p2
    let cleanup := match env.createTable with
      | .ok => true
      | .err _ => false
    let p4 := match env.deleteData with
      | .ok => { p3 with can_delete_data := true }
      | .err _ => p3
    let p5 := match env.updateDataset with
      | .ok => { p4 with can_update_dataset := true }
      | .err _ => p4
    .ok ⟨p5, allProbes, cleanup⟩

/-- The access-level classification of `generate_access_report`
(lines 158-169 of the script): nested if/elif over the probe booleans. -/
def classify (p : Permissions) : AccessLevel :=
  if p.can_update_dataset && p.can_delete_data then .OWNER
  else if p.can_write_data && p.can_create_table then .WRITER
  else if p.can_read_data then .READER
  else .NONE

/-- Modelled from the spec: the reference classification as the spec words it —
OWNER when `can_update_dataset` and `can_delete_data` are both true; otherwise
WRITER when `can_write_data` and `can_create_table` are both true; otherwise
READER when `can_read_data` is true; otherwise NONE. -/
def classifySpec (p : Permissions) : AccessLevel :=
  if p.can_update_dataset = true ∧ p.can_delete_data = true then .OWNER
  else if p.can_write_data = true ∧ p.can_create_table = true then .WRITER
  else if p.can_read_data = true then .READER
  else .NONE

/-- Lines 133-203 of the script: construct the client (a failure there is an
uncaught exception), run the probe battery (an exception escaping it
propagates further), classify, and return `access_level != "NONE"`. -/
def generate_access_report (env : Env) : Except ErrKind Bool :=
  match env.clientInit with
  | .err e => .error e
  | .ok =>
    match check_dataset_permissions env with
    | .error e => .error e
    | .ok r => .ok (decide (classify r.permissions ≠ AccessLevel.NONE))

/-- Lines 206-227 of the script: `main` returns 0 if `generate_access_report`
returned a truthy value, 1 otherwise, and 1 when it raised any exception
(the `except Exception` handler); `sys.exit(main())` makes this the process
exit status. -/
def main (env : Env) : Nat :=
  match generate_access_report env with
  | .ok b => if b then 0 else 1
  | .error _ => 1

/-- C1: the classification function of the script equals the spec's reference
definition on every assignment of the eight probe booleans, and in particular
every input with `can_update_dataset = true`, `can_delete_data = true` and
`can_write_data = false` (all other probes arbitrary) is classified OWNER. -/
theorem classify_matches_spec :
    (∀ p : Permissions, classify p = classifySpec p) ∧
    (∀ de ltb gd ct rd : Bool,
      classify ⟨de, ltb, gd, ct, rd, false, true, true⟩ = AccessLevel.OWNER) := by
  constructor
  · intro p
    obtain ⟨a, b, c, d, e, f, g, k⟩ := p
    revert a b c d e f g k
    decide
  · decide

/-- C2 counterexample: the input with `can_delete_data = true` and
`can_update_dataset = true` but `can_read_data = false` is classified OWNER,
not NONE, although its `can_read_data` is false — so NONE is not equivalent
to `can_read_data = false`. -/
theorem classify_none_iff_read_cex :
    classify ⟨false, false, false, false, false, false, true, true⟩
      = AccessLevel.OWNER ∧
    (⟨false, false, false, false, false, false, true, true⟩ :
      Permissions).can_read_data = false := by
  decide

/-- C2 (amended): the classification is NONE iff `can_read_data` is false and
neither the OWNER evidence pair (`can_update_dataset` and `can_delete_data`)
nor the WRITER evidence pair (`can_write_data` and `can_create_table`) holds;
in particular `can_write_data = true` alone, with `can_read_data = false` and
`can_create_table = false`, still yields NONE. -/
theorem classify_none_iff :
    ∀ p : Permissions,
      classify p = AccessLevel.NONE ↔
        (p.can_read_data = false ∧
          ¬(p.can_update_dataset = true ∧ p.can_delete_data = true) ∧
          ¬(p.can_write_data = true ∧ p.can_create_table = true)) := by
  intro p
  obtain ⟨a, b, c, d, e, f, g, k⟩ := p
  revert a b c d e f g k
  decide

/-- C8: the classification is deterministic — equal assignments of the eight
probe booleans always derive the same access level. -/
theorem classify_deterministic (p q : Permissions) (h : p = q) :
    classify p = classify q := by
  rw [h]

/-- C8 witness: determinism applied at the all-true assignment. -/
theorem classify_deterministic_witness :
    classify ⟨true, true, true, true, true, true, true, true⟩ =
      classify ⟨true, true, true, true, true, true, true, true⟩ :=
  classify_deterministic ⟨true, true, true, true, true, true, true, true⟩
    ⟨true, true, true, true, true, true, true, true⟩ rfl

/-- C10: the classification is monotone — setting any single probe boolean to
true (in particular flipping it from false to true) never lowers the derived
access level under the ranking NONE < READER < WRITER < OWNER. -/
theorem classify_monotone :
    ∀ p : Permissions,
      (classify p).toNat ≤ (classify { p with dataset_exists := true }).toNat ∧
      (classify p).toNat ≤ (classify { p with can_list_tables := true }).toNat ∧
      (classify p).toNat ≤ (classify { p with can_get_dataset := true }).toNat ∧
      (classify p).toNat ≤ (classify { p with can_create_table := true }).toNat ∧
      (classify p).toNat ≤ (classify { p with can_read_data := true }).toNat ∧
      (classify p).toNat ≤ (classify { p with can_write_data := true }).toNat ∧
      (classify p).toNat ≤ (classify { p with can_delete_data := true }).toNat ∧
      (classify p).toNat ≤ (classify { p with can_update_dataset := true }).toNat := by
  intro p
  obtain ⟨a, b, c, d, e, f, g, k⟩ := p
  revert a b c d e f g k
  decide

/-- C3 counterexample: when the dataset-metadata probe fails with NotFound
(all other calls would succeed), the function returns early: only the
metadata probe was attempted, and in particular the table-listing probe — a
subsequent probe — never executes. -/
theorem probe_isolation_cex :
    check_dataset_permissions
        ⟨Outcome.ok, Outcome.err ErrKind.notFound, Outcome.ok, Outcome.ok,
          Outcome.ok, Outcome.ok, Outcome.ok, Outcome.ok⟩
      = Except.ok ⟨initPermissions, [ProbeName.getDataset], false⟩ ∧
    ProbeName.listTables ∉ [ProbeName.getDataset] :=
  ⟨rfl, by decide⟩

/-- C3 (amended): probe isolation holds for every probe after the
dataset-metadata probe — whenever the metadata probe succeeds, all six probes
execute and are recorded, whatever the other probes' failures; a metadata
probe failure instead returns early (NotFound/Forbidden) or propagates
(any other error). -/
theorem probe_isolation (env : Env) (h : env.getDataset = Outcome.ok) :
    (check_dataset_permissions env).map RunResult.attempted = Except.ok allProbes := by
  obtain ⟨ci, gd, ltb, rq, ct, dtp, dd, ud⟩ := env
  cases gd with
  | ok => rfl
  | err e => simp at h

/-- C3 witness: the amended isolation theorem at the all-successful
environment. -/
theorem probe_isolation_witness :
    (check_dataset_permissions
        ⟨Outcome.ok, Outcome.ok, Outcome.ok, Outcome.ok,
          Outcome.ok, Outcome.ok, Outcome.ok, Outcome.ok⟩).map RunResult.attempted
      = Except.ok allProbes :=
  probe_isolation
    ⟨Outcome.ok, Outcome.ok, Outcome.ok, Outcome.ok,
      Outcome.ok, Outcome.ok, Outcome.ok, Outcome.ok⟩ rfl

/-- C4 counterexample: a transient error raised by the dataset-metadata probe
is not caught at the probe boundary — it propagates out of
`check_dataset_permissions` as a run-level failure. -/
theorem error_propagation_cex :
    check_dataset_permissions
        ⟨Outcome.ok, Outcome.err ErrKind.transient, Outcome.ok, Outcome.ok,
          Outcome.ok, Outcome.ok, Outcome.ok, Outcome.ok⟩
      = Except.error ErrKind.transient :=
  rfl

/-- C4 (amended): an error escapes `check_dataset_permissions` iff the
dataset-metadata probe raises an error other than NotFound/Forbidden (modelled
as `transient`); NotFound/Forbidden there cause an early all-false return,
and every error in every other probe is caught at the probe boundary and
leaves only that probe's booleans false. -/
theorem error_propagation (env : Env) :
    (∃ e, check_dataset_permissions env = Except.error e) ↔
      env.getDataset = Outcome.err ErrKind.transient := by
  obtain ⟨ci, gd, ltb, rq, ct, dtp, dd, ud⟩ := env
  cases gd with
  | ok => simp [check_dataset_permissions]
  | err e => cases e <;> simp [check_dataset_permissions]

/-- C5 counterexample: when the create-as-select fails (here: Forbidden) the
cleanup `delete_table` is never attempted, although the write probe did
execute — cleanup is not attempted "regardless of creation outcome". -/
theorem cleanup_cex :
    check_dataset_permissions
        ⟨Outcome.ok, Outcome.ok, Outcome.ok, Outcome.ok,
          Outcome.err ErrKind.forbidden, Outcome.ok, Outcome.ok, Outcome.ok⟩
      = Except.ok ⟨⟨true, true, true, false, true, false, true, true⟩, allProbes, false⟩ :=
  rfl

/-- C5 (amended): the cleanup delete-if-exists is attempted iff the write
probe runs (the metadata probe succeeded) and its create-as-select operation
succeeds; on creation failure the exception skips the cleanup line. -/
theorem cleanup_iff_create (env : Env) (r : RunResult)
    (h : check_dataset_permissions env = Except.ok r) :
    r.cleanupAttempted = true ↔
      (env.getDataset = Outcome.ok ∧ env.createTable = Outcome.ok) := by
  obtain ⟨ci, gd, ltb, rq, ct, dtp, dd, ud⟩ := env
  cases gd with
  | ok =>
    cases ct with
    | ok =>
      injection h with h2
      subst h2
      exact iff_of_true rfl ⟨rfl, rfl⟩
    | err e2 =>
      injection h with h2
      subst h2
      simp
  | err e =>
    cases e with
    | notFound =>
      injection h with h2
      subst h2
      simp
    | forbidden =>
      injection h with h2
      subst h2
      simp
    | transient => injection h

/-- C5 witness: the amended cleanup theorem at the all-successful environment
and its run result. -/
theorem cleanup_iff_create_witness :
    (⟨⟨true, true, true, true, true, true, true, true⟩, allProbes, true⟩ :
        RunResult).cleanupAttempted = true ↔
      ((⟨Outcome.ok, Outcome.ok, Outcome.ok, Outcome.ok,
          Outcome.ok, Outcome.ok, Outcome.ok, Outcome.ok⟩ : Env).getDataset = Outcome.ok ∧
       (⟨Outcome.ok, Outcome.ok, Outcome.ok, Outcome.ok,
          Outcome.ok, Outcome.ok, Outcome.ok, Outcome.ok⟩ : Env).createTable = Outcome.ok) :=
  cleanup_iff_create
    ⟨Outcome.ok, Outcome.ok, Outcome.ok, Outcome.ok,
      Outcome.ok, Outcome.ok, Outcome.ok, Outcome.ok⟩
    ⟨⟨true, true, true, true, true, true, true, true⟩, allProbes, true⟩ rfl

/-- C6: if the write probe runs, its create-as-select succeeds, and the
cleanup deletion fails with any error, the recorded `can_create_table` and
`can_write_data` stay true: cleanup failure is swallowed, never surfaced as a
probe failure. -/
theorem cleanup_failure_swallowed (env : Env) (r : RunResult) (e : ErrKind)
    (hg : env.getDataset = Outcome.ok) (hc : env.createTable = Outcome.ok)
    (hd : env.deleteTempTable = Outcome.err e)
    (h : check_dataset_permissions env = Except.ok r) :
    r.permissions.can_create_table = true ∧ r.permissions.can_write_data = true := by
  obtain ⟨ci, gd, ltb, rq, ct, dtp, dd, ud⟩ := env
  cases gd with
  | err e2 => simp at hg
  | ok =>
    cases ct with
    | err e2 => simp at hc
    | ok =>
      injection h with h2
      subst h2
      cases dd <;> cases ud <;> exact ⟨rfl, rfl⟩

/-- C6 witness: the swallowed-cleanup-failure theorem at an environment where
every call succeeds except the cleanup deletion. -/
theorem cleanup_failure_swallowed_witness :
    (⟨⟨true, true, true, true, true, true, true, true⟩, allProbes, true⟩ :
        RunResult).permissions.can_create_table = true ∧
    (⟨⟨true, true, true, true, true, true, true, true⟩, allProbes, true⟩ :
        RunResult).permissions.can_write_data = true :=
  cleanup_failure_swallowed
    ⟨Outcome.ok, Outcome.ok, Outcome.ok, Outcome.ok,
      Outcome.ok, Outcome.err ErrKind.forbidden, Outcome.ok, Outcome.ok⟩
    ⟨⟨true, true, true, true, true, true, true, true⟩, allProbes, true⟩
    ErrKind.forbidden rfl rfl rfl rfl

/-- C9: every permissions map `check_dataset_permissions` returns satisfies
the pairing invariant `can_create_table = can_write_data` and
`dataset_exists = can_get_dataset`, on success, probe-failure and
early-return paths alike. -/
theorem perms_pairing (env : Env) (r : RunResult)
    (h : check_dataset_permissions env = Except.ok r) :
    r.permissions.can_create_table = r.permissions.can_write_data ∧
    r.permissions.dataset_exists = r.permissions.can_get_dataset := by
  obtain ⟨ci, gd, ltb, rq, ct, dtp, dd, ud⟩ := env
  cases gd with
  | err e =>
    cases e with
    | notFound =>
      injection h with h2
      subst h2
      exact ⟨rfl, rfl⟩
    | forbidden =>
      injection h with h2
      subst h2
      exact ⟨rfl, rfl⟩
    | transient => injection h
  | ok =>
    injection h with h2
    subst h2
    cases ltb <;> cases rq <;> cases ct <;> cases dd <;> cases ud <;> exact ⟨rfl, rfl⟩

/-- C9 witness: the pairing invariant at the all-successful environment and
its run result. -/
theorem perms_pairing_witness :
    (⟨⟨true, true, true, true, true, true, true, true⟩, allProbes, true⟩ :
        RunResult).permissions.can_create_table =
      (⟨⟨true, true, true, true, true, true, true, true⟩, allProbes, true⟩ :
        RunResult).permissions.can_write_data ∧
    (⟨⟨true, true, true, true, true, true, true, true⟩, allProbes, true⟩ :
        RunResult).permissions.dataset_exists =
      (⟨⟨true, true, true, true, true, true, true, true⟩, allProbes, true⟩ :
        RunResult).permissions.can_get_dataset :=
  perms_pairing
    ⟨Outcome.ok, Outcome.ok, Outcome.ok, Outcome.ok,
      Outcome.ok, Outcome.ok, Outcome.ok, Outcome.ok⟩
    ⟨⟨true, true, true, true, true, true, true, true⟩, allProbes, true⟩ rfl

/-- C7: the process exit status is 0 iff the derived access level is not NONE
(1 when it is NONE), and 1 whenever report generation aborts — a probe-level
error escaping the battery or a client-construction failure. -/
theorem exit_code_spec (env : Env) :
    (∀ r, env.clientInit = Outcome.ok →
      check_dataset_permissions env = Except.ok r →
      main env = (if classify r.permissions = AccessLevel.NONE then 1 else 0)) ∧
    (∀ e, check_dataset_permissions env = Except.error e → main env = 1) ∧
    (∀ e, env.clientInit = Outcome.err e → main env = 1) := by
  refine ⟨?_, ?_, ?_⟩
  · intro r hci h
    by_cases hcl : classify r.permissions = AccessLevel.NONE <;>
      simp [main, generate_access_report, hci, h, hcl]
  · intro e h
    cases hci : env.clientInit with
    | ok => simp [main, generate_access_report, hci, h]
    | err e2 => simp [main, generate_access_report, hci]
  · intro e hci
    simp [main, generate_access_report, hci]

/-- C7 witness: the exit-code theorem at the all-successful environment and
its run result — exit code 0 since the derived level is OWNER. -/
theorem exit_code_spec_witness :
    main ⟨Outcome.ok, Outcome.ok, Outcome.ok, Outcome.ok,
        Outcome.ok, Outcome.ok, Outcome.ok, Outcome.ok⟩ =
      (if classify ⟨true, true, true, true, true, true, true, true⟩ = AccessLevel.NONE
        then 1 else 0) :=
  (exit_code_spec
      ⟨Outcome.ok, Outcome.ok, Outcome.ok, Outcome.ok,
        Outcome.ok, Outcome.ok, Outcome.ok, Outcome.ok⟩).1
    ⟨⟨true, true, true, true, true, true, true, true⟩, allProbes, true⟩ rfl rfl

end AccessSummary
